import Mathlib

/-!
Verification of the process-execution interception shim
(`container_src/lib/universal_router.c`).

The shim intercepts `execve`, `execvp`, `system` and `popen`.  We model the
C functions as pure Lean functions.  External effects (socket creation,
connection, the bytes returned by `read`, and the `access(_, X_OK)`
executability test used by the `execvp` PATH search) are supplied by a
`World` record.  Each intercepted primitive returns the request lines it
wrote to the daemon socket (if any) together with a `Behavior` describing
the observable outcome: termination via `exit`, or an invocation of one of
the real (non-intercepted) primitives with explicit arguments.

C strings are modelled as Lean `String`s (no interior NUL); a `NULL`
pointer for an `argv`/`envp` vector is modelled as `none`.  The ambient
`environ` is a `List String` of `NAME=value` entries.
-/

namespace URouter

/-- Models `strncmp(s, t, n) == 0` for NUL-free C strings `s`, `t` given as
char lists: compare up to `n` characters, where running off the end of a string
corresponds to reaching its NUL terminator.  In particular, comparing `n`
characters against a literal of length `n - 1` also compares the literal's
terminating NUL, so it only accepts `s` equal to the whole literal. -/
def strncmpEq : List Char → List Char → Nat → Bool
  | _, _, 0 => true
  | [], [], _ + 1 => true
  | [], _ :: _, _ + 1 => false
  | _ :: _, [], _ + 1 => false
  | a :: as, b :: bs, n + 1 => a == b && strncmpEq as bs n

/-- C `getenv` over an environment list: the value of the first entry whose
name part matches, i.e. the first entry of which `name ++ "="` is a prefix,
with the value being everything after the `=`. -/
def getenv (env : List String) (name : String) : Option String :=
  match env with
  | [] => none
  | e :: es =>
    if List.isPrefixOf (name.data ++ ['=']) e.data then
      some (String.mk (e.data.drop (name.data.length + 1)))
    else getenv es name

/-- C `atoi` digit-accumulation loop: consume leading decimal digits. -/
def atoiDigits : List Char → Nat → Nat
  | [], acc => acc
  | c :: cs, acc =>
    if c.isDigit then atoiDigits cs (acc * 10 + (c.toNat - 48)) else acc

/-- Whitespace characters skipped by `atoi` (C `isspace`). -/
def isSpaceC (c : Char) : Bool :=
  c == ' ' || c == '\t' || c == '\n' || c == '\x0b' || c == '\x0c' || c == '\r'

/-- C `atoi`: skip leading whitespace, optional sign, then decimal digits;
anything else (including an empty remainder) yields 0. -/
def atoi (s : String) : Int :=
  match s.data.dropWhile isSpaceC with
  | '-' :: rest => -(atoiDigits rest 0 : Int)
  | '+' :: rest => (atoiDigits rest 0 : Int)
  | rest => (atoiDigits rest 0 : Int)

/-- The environment-entry filter used both by the request encoder and by
the `popen` interceptor (lines 75-76 and 152-153 of the source):
`strncmp(e, "SANDBOX_ROUTE_TO_CONTEXT=", 26) != 0 &&
 strncmp(e, "LD_PRELOAD=", 11) != 0`.
Note the literal `"SANDBOX_ROUTE_TO_CONTEXT="` has 25 characters, so the
comparison length 26 includes the literal's NUL terminator, while
`"LD_PRELOAD="` has exactly 11 characters, so that comparison is a prefix
test. -/
def keepEnv (e : String) : Bool :=
  !(strncmpEq e.data "SANDBOX_ROUTE_TO_CONTEXT=".data 26) &&
  !(strncmpEq e.data "LD_PRELOAD=".data 11)

/-- External effects visible to one intercepted call. -/
structure World where
  /-- True when `socket(AF_UNIX, SOCK_STREAM, 0)` succeeds (`sock >= 0`). -/
  socketOk : Bool
  /-- True when `connect` to `/tmp/sandbox_router.sock` succeeds. -/
  connectOk : Bool
  /-- The bytes returned by `read(sock, result, 31)`; the empty string
  models a zero-length read or a read error (`n <= 0`). -/
  readBytes : String
  /-- True when `access(p, X_OK) == 0` for a candidate path `p`. -/
  xok : String → Bool

/-- Observable outcome of an intercepted call: either the process exits
with a status (never returning to the caller), or one of the real
primitives is invoked with the given arguments.  For `realPopen` we record
the `environ` in effect while the real `popen` runs and the `environ`
visible after the call returns. -/
inductive Behavior where
  | exited (code : Int)
  | realExecve (pathname : String) (argv : Option (List String))
      (envp : Option (List String))
  | realExecvp (file : String) (argv : Option (List String))
  | realSystem (command : String)
  | realPopen (command : String) (type : String)
      (envDuring : List String) (envAfter : List String)
  deriving DecidableEq, Repr

/-- Source `should_route` (lines 30-32): presence check of the activation
variable. -/
def should_route (env : List String) : Bool :=
  (getenv env "SANDBOX_ROUTE_TO_CONTEXT").isSome

/-- The request lines written by `route_to_context` (source lines 59-82):
`ROUTE`, the context line, the command line, one `ARG:` line per argument
when `argv` is non-NULL, one `ENV:` line per surviving entry when `envp`
is non-NULL, then `END`.  Each line is newline-terminated on the wire. -/
def encodeRequest (target pathname : String) (argv envp : Option (List String)) :
    List String :=
  ["ROUTE", "CONTEXT:" ++ target, "CMD:" ++ pathname]
    ++ (argv.getD []).map (fun a => "ARG:" ++ a)
    ++ ((envp.getD []).filter keepEnv).map (fun e => "ENV:" ++ e)
    ++ ["END"]

/-- Source `route_to_context` (lines 35-97).  Returns the request lines
sent (if a connection was established) and the observable outcome. -/
def route_to_context (w : World) (env : List String) (pathname : String)
    (argv envp : Option (List String)) : Option (List String) × Behavior :=
  match getenv env "SANDBOX_ROUTE_TO_CONTEXT" with
  | none => (none, .realExecve pathname argv envp)
  | some target =>
    if !w.socketOk then
      (none, .realExecve pathname argv envp)
    else if !w.connectOk then
      (none, .realExecve pathname argv envp)
    else
      let req := encodeRequest target pathname argv envp
      if w.readBytes = "" then
        (some req, .realExecve pathname argv envp)
      else
        (some req, .exited (atoi w.readBytes))

/-- Intercepted `execve` (source lines 100-105). -/
def execve (w : World) (env : List String) (pathname : String)
    (argv envp : Option (List String)) : Option (List String) × Behavior :=
  if should_route env then route_to_context w env pathname argv envp
  else (none, .realExecve pathname argv envp)

/-- Models `snprintf(fullpath, 4096, "%s/%s", dir, file)`: concatenation
truncated to 4095 characters. -/
def fullPath (dir file : String) : String :=
  String.mk ((dir.data ++ '/' :: file.data).take 4095)

/-- Models the `strtok(path_copy, ":")` iteration: the maximal non-empty runs of
non-`:` characters, in order (empty tokens are skipped). -/
def strtokAux : List Char → List Char → List String
  | [], cur => if cur.isEmpty then [] else [String.mk cur.reverse]
  | c :: cs, cur =>
    if c == ':' then
      if cur.isEmpty then strtokAux cs [] else String.mk cur.reverse :: strtokAux cs []
    else strtokAux cs (c :: cur)

/-- The directories produced by tokenizing a PATH string on `:`. -/
def strtokSplit (s : String) : List String := strtokAux s.data []

/-- The `while (dir)` loop of `execvp` (source lines 118-125): probe each
PATH directory in order, returning the first concatenation that passes the
executability test. -/
def searchPath (xok : String → Bool) (file : String) : List String → Option String
  | [] => none
  | dir :: rest =>
    if xok (fullPath dir file) then some (fullPath dir file)
    else searchPath xok file rest

/-- Intercepted `execvp` (source lines 107-132).  Under routing the PATH
(defaulting to `/usr/bin:/bin` when unset) is searched unconditionally;
the routed `envp` is the ambient `environ`. -/
def execvp (w : World) (env : List String) (file : String)
    (argv : Option (List String)) : Option (List String) × Behavior :=
  if should_route env then
    let path := (getenv env "PATH").getD "/usr/bin:/bin"
    match searchPath w.xok file (strtokSplit path) with
    | some fp => route_to_context w env fp argv (some env)
    | none => route_to_context w env file argv (some env)
  else (none, .realExecvp file argv)

/-- Intercepted `system` (source lines 134-141): under routing the command
is wrapped as `/bin/sh` with argv `["sh", "-c", command]` and routed via
`route_to_context` with the ambient `environ`. -/
def system (w : World) (env : List String) (command : String) :
    Option (List String) × Behavior :=
  if should_route env then
    route_to_context w env "/bin/sh" (some ["sh", "-c", command]) (some env)
  else (none, .realSystem command)

/-- The filtering loop of `popen` (source lines 150-157):
`for (int i = 0; environ[i] && j < 1023; i++)` copies surviving entries
while fewer than 1023 have been kept; the scan stops as soon as `j`
reaches 1023. -/
def popenFilterAux : List String → Nat → List String
  | [], _ => []
  | e :: es, j =>
    if j < 1023 then
      if keepEnv e then e :: popenFilterAux es (j + 1) else popenFilterAux es j
    else []

/-- Intercepted `popen` (source lines 143-168): under routing, the real
`popen` runs with `environ` temporarily replaced by the filtered
environment, and the original `environ` is restored afterwards.  No
request is ever sent to the daemon. -/
def popen (env : List String) (command type : String) :
    Option (List String) × Behavior :=
  if should_route env then
    (none, .realPopen command type (popenFilterAux env 0) env)
  else
    (none, .realPopen command type env env)

/-! ### Helper lemmas -/

/-- Presence of the activation variable makes the routing policy fire. -/
theorem should_route_of_some {env : List String} {t : String}
    (h : getenv env "SANDBOX_ROUTE_TO_CONTEXT" = some t) :
    should_route env = true := by
  unfold should_route
  rw [h]
  rfl

/-- Absence of the activation variable makes the routing policy yield false. -/
theorem should_route_of_none {env : List String}
    (h : getenv env "SANDBOX_ROUTE_TO_CONTEXT" = none) :
    should_route env = false := by
  unfold should_route
  rw [h]
  rfl

/-- With the activation variable set and both socket and connect
succeeding, `route_to_context` sends the encoded request and either exits
with the parsed response or falls back when no bytes were read. -/
theorem route_to_context_connected (w : World) (env : List String)
    (p : String) (argv envp : Option (List String)) (target : String)
    (hT : getenv env "SANDBOX_ROUTE_TO_CONTEXT" = some target)
    (hs : w.socketOk = true) (hc : w.connectOk = true) :
    route_to_context w env p argv envp =
      if w.readBytes = "" then
        (some (encodeRequest target p argv envp), .realExecve p argv envp)
      else
        (some (encodeRequest target p argv envp), .exited (atoi w.readBytes)) := by
  unfold route_to_context
  rw [hT]
  simp only [hs, hc, Bool.not_true, Bool.false_eq_true, if_false]

/-- On a connected attempt the request sent is the encoded request,
whatever the response. -/
theorem route_to_context_fst (w : World) (env : List String)
    (p : String) (argv envp : Option (List String)) (target : String)
    (hT : getenv env "SANDBOX_ROUTE_TO_CONTEXT" = some target)
    (hs : w.socketOk = true) (hc : w.connectOk = true) :
    (route_to_context w env p argv envp).1 =
      some (encodeRequest target p argv envp) := by
  rw [route_to_context_connected w env p argv envp target hT hs hc]
  split <;> rfl

/-- The digit loop yields zero when the list does not start with a digit. -/
theorem atoiDigits_zero_of_head (l : List Char)
    (h : ∀ c ∈ l, c.isDigit = false) : atoiDigits l 0 = 0 := by
  cases l with
  | nil => rfl
  | cons c cs => simp [atoiDigits, h c (List.mem_cons_self c cs)]

/-- C `atoi` of a string with no decimal digit is zero. -/
theorem atoi_of_no_digit (s : String) (h : ∀ c ∈ s.data, c.isDigit = false) :
    atoi s = 0 := by
  have hsub : ∀ c ∈ s.data.dropWhile isSpaceC, c.isDigit = false :=
    fun c hc => h c ((List.dropWhile_sublist isSpaceC).subset hc)
  unfold atoi
  split
  · rename_i rest heq
    rw [atoiDigits_zero_of_head rest
      (fun c hc => hsub c (heq ▸ List.mem_cons_of_mem _ hc))]
    rfl
  · rename_i rest heq
    rw [atoiDigits_zero_of_head rest
      (fun c hc => hsub c (heq ▸ List.mem_cons_of_mem _ hc))]
    rfl
  · rename_i h1 h2
    rw [atoiDigits_zero_of_head _ hsub]
    rfl

/-- The PATH probe loop returns the first concatenation that passes the
executability test. -/
theorem searchPath_of_first (xok : String → Bool) (file : String) :
    ∀ (pre : List String) (d : String) (post : List String),
    (∀ e ∈ pre, xok (fullPath e file) = false) →
    xok (fullPath d file) = true →
    searchPath xok file (pre ++ d :: post) = some (fullPath d file)
  | [], d, post, _, hd => by simp [searchPath, hd]
  | e :: pre, d, post, hpre, hd => by
    simp only [List.cons_append, searchPath, hpre e (List.mem_cons_self e pre),
      Bool.false_eq_true, if_false]
    exact searchPath_of_first xok file pre d post
      (fun x hx => hpre x (List.mem_cons_of_mem _ hx)) hd

/-- The PATH probe loop fails when no concatenation passes the test. -/
theorem searchPath_of_none (xok : String → Bool) (file : String) :
    ∀ l : List String, (∀ e ∈ l, xok (fullPath e file) = false) →
    searchPath xok file l = none
  | [], _ => rfl
  | e :: l, h => by
    simp only [searchPath, h e (List.mem_cons_self e l), Bool.false_eq_true, if_false]
    exact searchPath_of_none xok file l (fun x hx => h x (List.mem_cons_of_mem _ hx))

/-- When the concatenation fits in the 4096-byte buffer, `fullPath` is the
plain concatenation `dir ++ "/" ++ file`. -/
theorem fullPath_eq_concat (dir file : String)
    (h : dir.data.length + 1 + file.data.length ≤ 4095) :
    fullPath dir file = dir ++ "/" ++ file := by
  unfold fullPath
  rw [List.take_of_length_le
    (by simp only [List.length_append, List.length_cons]; omega)]
  cases dir with
  | mk dd =>
    cases file with
    | mk fd =>
      have hd : (dd ++ '/' :: fd) = ((dd ++ ['/']) ++ fd) := by simp
      exact congrArg String.mk hd

/-- The `popen` filter loop keeps exactly the first `1023 - j` surviving
entries. -/
theorem popenFilterAux_eq :
    ∀ (env : List String) (j : Nat),
    popenFilterAux env j = (env.filter keepEnv).take (1023 - j)
  | [], j => by simp [popenFilterAux]
  | e :: es, j => by
    unfold popenFilterAux
    by_cases hj : j < 1023
    · by_cases hk : keepEnv e = true
      · rw [if_pos hj, if_pos hk, popenFilterAux_eq es (j + 1),
          List.filter_cons_of_pos hk]
        have h3 : 1023 - j = (1023 - (j + 1)) + 1 := by omega
        rw [h3, List.take_succ_cons]
      · rw [if_pos hj, if_neg (by simpa using hk), popenFilterAux_eq es j,
          List.filter_cons_of_neg (by simpa using hk)]
    · rw [if_neg hj]
      have h0 : 1023 - j = 0 := by omega
      rw [h0, List.take_zero]

/-! ### Claim theorems -/

/-- C6: with the activation variable unset, the routing policy is a pure
presence check yielding false, and every intercepted primitive invokes the
corresponding real primitive with the caller's original arguments. -/
theorem unset_is_transparent (w : World) (env : List String)
    (p f c t : String) (argv envp : Option (List String))
    (h : getenv env "SANDBOX_ROUTE_TO_CONTEXT" = none) :
    should_route env = false ∧
    execve w env p argv envp = (none, .realExecve p argv envp) ∧
    execvp w env f argv = (none, .realExecvp f argv) ∧
    system w env c = (none, .realSystem c) ∧
    popen env c t = (none, .realPopen c t env env) := by
  have hr := should_route_of_none h
  exact ⟨hr, by simp [execve, hr], by simp [execvp, hr],
    by simp [system, hr], by simp [popen, hr]⟩

/-- Witness for C6 at a concrete environment without the activation
variable. -/
theorem unset_is_transparent_witness :
    should_route ["HOME=/root"] = false ∧
    execve ⟨true, true, "7", fun _ => false⟩ ["HOME=/root"] "/bin/ls"
        (some ["ls"]) (some []) =
      (none, .realExecve "/bin/ls" (some ["ls"]) (some [])) ∧
    execvp ⟨true, true, "7", fun _ => false⟩ ["HOME=/root"] "ls"
        (some ["ls"]) =
      (none, .realExecvp "ls" (some ["ls"])) ∧
    system ⟨true, true, "7", fun _ => false⟩ ["HOME=/root"] "echo hi" =
      (none, .realSystem "echo hi") ∧
    popen ["HOME=/root"] "echo hi" "r" =
      (none, .realPopen "echo hi" "r" ["HOME=/root"] ["HOME=/root"]) :=
  unset_is_transparent ⟨true, true, "7", fun _ => false⟩ ["HOME=/root"]
    "/bin/ls" "ls" "echo hi" "r" (some ["ls"]) (some []) (by decide)

/-- C7: on a connected routing attempt the request consists of exactly the
ROUTE line, the context line, the command line, one ARG line per argument
in the original order, one ENV line per surviving environment entry in the
original order, then the END terminator; an absent vector or an empty or
fully filtered list contributes no lines. -/
theorem request_is_canonical (w : World) (env : List String)
    (p target : String) (argv envp : Option (List String))
    (hT : getenv env "SANDBOX_ROUTE_TO_CONTEXT" = some target)
    (hs : w.socketOk = true) (hc : w.connectOk = true) :
    (route_to_context w env p argv envp).1 =
      some (["ROUTE", "CONTEXT:" ++ target, "CMD:" ++ p]
        ++ (argv.getD []).map (fun a => "ARG:" ++ a)
        ++ ((envp.getD []).filter keepEnv).map (fun e => "ENV:" ++ e)
        ++ ["END"]) ∧
    (route_to_context w env p none none).1 =
      some ["ROUTE", "CONTEXT:" ++ target, "CMD:" ++ p, "END"] ∧
    (route_to_context w env p (some []) (some ["LD_PRELOAD=/x.so"])).1 =
      some ["ROUTE", "CONTEXT:" ++ target, "CMD:" ++ p, "END"] := by
  refine ⟨route_to_context_fst w env p argv envp target hT hs hc, ?_, ?_⟩
  · rw [route_to_context_fst w env p none none target hT hs hc]
    rfl
  · rw [route_to_context_fst w env p (some []) (some ["LD_PRELOAD=/x.so"])
      target hT hs hc]
    rfl

/-- Witness for C7 at a concrete connected world and environment. -/
theorem request_is_canonical_witness :
    (route_to_context ⟨true, true, "", fun _ => false⟩
        ["SANDBOX_ROUTE_TO_CONTEXT=c"] "/bin/ls" (some ["ls"])
        (some ["HOME=/r"])).1 =
      some (["ROUTE", "CONTEXT:" ++ "c", "CMD:" ++ "/bin/ls"]
        ++ ((some ["ls"]).getD []).map (fun a => "ARG:" ++ a)
        ++ (((some ["HOME=/r"]).getD []).filter keepEnv).map
            (fun e => "ENV:" ++ e)
        ++ ["END"]) ∧
    (route_to_context ⟨true, true, "", fun _ => false⟩
        ["SANDBOX_ROUTE_TO_CONTEXT=c"] "/bin/ls" none none).1 =
      some ["ROUTE", "CONTEXT:" ++ "c", "CMD:" ++ "/bin/ls", "END"] ∧
    (route_to_context ⟨true, true, "", fun _ => false⟩
        ["SANDBOX_ROUTE_TO_CONTEXT=c"] "/bin/ls" (some [])
        (some ["LD_PRELOAD=/x.so"])).1 =
      some ["ROUTE", "CONTEXT:" ++ "c", "CMD:" ++ "/bin/ls", "END"] :=
  request_is_canonical ⟨true, true, "", fun _ => false⟩
    ["SANDBOX_ROUTE_TO_CONTEXT=c"] "/bin/ls" "c" (some ["ls"])
    (some ["HOME=/r"]) (by decide) rfl rfl

/-- C8: an intercepted popen call under active routing runs the real popen
with the filtered environment substituted and unconditionally restores the
original environ afterwards, whether or not the call yielded a handle. -/
theorem popen_restores_environ (env : List String) (c t : String)
    (h : should_route env = true) :
    popen env c t = (none, .realPopen c t (popenFilterAux env 0) env) := by
  simp [popen, h]

/-- Witness for C8 at a concrete routed environment. -/
theorem popen_restores_environ_witness :
    should_route ["SANDBOX_ROUTE_TO_CONTEXT=c", "LD_PRELOAD=/x.so"] = true ∧
    popen ["SANDBOX_ROUTE_TO_CONTEXT=c", "LD_PRELOAD=/x.so"] "cmd" "r" =
      (none, .realPopen "cmd" "r"
        (popenFilterAux ["SANDBOX_ROUTE_TO_CONTEXT=c", "LD_PRELOAD=/x.so"] 0)
        ["SANDBOX_ROUTE_TO_CONTEXT=c", "LD_PRELOAD=/x.so"]) :=
  ⟨by decide, popen_restores_environ
    ["SANDBOX_ROUTE_TO_CONTEXT=c", "LD_PRELOAD=/x.so"] "cmd" "r" (by decide)⟩

/-- C9: the environment substituted for a routed popen call holds exactly
the first 1023 surviving ambient entries — surviving entries beyond the
first 1023 are silently dropped — so it never exceeds 1023 entries. -/
theorem popen_env_capped (env : List String) (c t : String)
    (h : should_route env = true) :
    popen env c t =
      (none, .realPopen c t ((env.filter keepEnv).take 1023) env) ∧
    (popenFilterAux env 0).length ≤ 1023 := by
  have he : popenFilterAux env 0 = (env.filter keepEnv).take 1023 :=
    popenFilterAux_eq env 0
  constructor
  · rw [popen_restores_environ env c t h, he]
  · rw [he]
    exact List.length_take_le 1023 _

/-- Witness for C9 at a concrete routed environment. -/
theorem popen_env_capped_witness :
    popen ["SANDBOX_ROUTE_TO_CONTEXT=c", "HOME=/r"] "cmd" "r" =
      (none, .realPopen "cmd" "r"
        ((["SANDBOX_ROUTE_TO_CONTEXT=c", "HOME=/r"].filter keepEnv).take 1023)
        ["SANDBOX_ROUTE_TO_CONTEXT=c", "HOME=/r"]) ∧
    (popenFilterAux ["SANDBOX_ROUTE_TO_CONTEXT=c", "HOME=/r"] 0).length ≤ 1023 :=
  popen_env_capped ["SANDBOX_ROUTE_TO_CONTEXT=c", "HOME=/r"] "cmd" "r" (by decide)

/-- C3: on a connected routing attempt, a non-empty transport read makes
the process exit with the response parsed as a base-10 integer (a response
with no decimal digit parses to zero), never returning to the caller and
never invoking a real primitive; an empty read (zero bytes or a read
error) sends no result and the call falls back to the real primitive. -/
theorem response_decides (w : World) (env : List String) (p : String)
    (argv envp : Option (List String)) (target : String)
    (hT : getenv env "SANDBOX_ROUTE_TO_CONTEXT" = some target)
    (hs : w.socketOk = true) (hc : w.connectOk = true) :
    (w.readBytes ≠ "" →
      (route_to_context w env p argv envp).2 = .exited (atoi w.readBytes)) ∧
    (∀ s : String, (∀ c ∈ s.data, c.isDigit = false) → atoi s = 0) ∧
    (w.readBytes = "" →
      (route_to_context w env p argv envp).2 = .realExecve p argv envp) := by
  refine ⟨?_, atoi_of_no_digit, ?_⟩
  · intro hb
    rw [route_to_context_connected w env p argv envp target hT hs hc,
      if_neg hb]
  · intro hb
    rw [route_to_context_connected w env p argv envp target hT hs hc,
      if_pos hb]

/-- Witness for C3 at a concrete connected world responding "7". -/
theorem response_decides_witness :
    (("7" : String) ≠ "" →
      (route_to_context ⟨true, true, "7", fun _ => false⟩
        ["SANDBOX_ROUTE_TO_CONTEXT=c"] "/bin/ls" (some ["ls"])
        (some [])).2 = .exited (atoi "7")) ∧
    (∀ s : String, (∀ c ∈ s.data, c.isDigit = false) → atoi s = 0) ∧
    (("7" : String) = "" →
      (route_to_context ⟨true, true, "7", fun _ => false⟩
        ["SANDBOX_ROUTE_TO_CONTEXT=c"] "/bin/ls" (some ["ls"])
        (some [])).2 = .realExecve "/bin/ls" (some ["ls"]) (some [])) :=
  response_decides ⟨true, true, "7", fun _ => false⟩
    ["SANDBOX_ROUTE_TO_CONTEXT=c"] "/bin/ls" (some ["ls"]) (some []) "c"
    (by decide) rfl rfl

/-- C4: under routing the shell-command primitive wraps the command as an
invocation of /bin/sh with argument vector [sh, -c, command]; with the
activation variable set to "contextA" the request lines are ROUTE,
CONTEXT:contextA, CMD:/bin/sh, ARG:sh, ARG:-c, ARG:command in this order,
and a daemon response of "0" makes the process exit with status 0. -/
theorem system_wraps_shell (w : World) (env : List String) (command : String)
    (hT : getenv env "SANDBOX_ROUTE_TO_CONTEXT" = some "contextA")
    (hs : w.socketOk = true) (hc : w.connectOk = true) :
    ∃ r, (system w env command).1 = some r ∧
      r.get? 0 = some "ROUTE" ∧
      r.get? 1 = some "CONTEXT:contextA" ∧
      r.get? 2 = some "CMD:/bin/sh" ∧
      r.get? 3 = some "ARG:sh" ∧
      r.get? 4 = some "ARG:-c" ∧
      r.get? 5 = some ("ARG:" ++ command) ∧
      (w.readBytes = "0" → (system w env command).2 = .exited 0) := by
  have hr := should_route_of_some hT
  have hsys : system w env command =
      route_to_context w env "/bin/sh" (some ["sh", "-c", command])
        (some env) := by
    simp [system, hr]
  refine ⟨encodeRequest "contextA" "/bin/sh" (some ["sh", "-c", command])
    (some env), ?_, rfl, rfl, rfl, rfl, rfl, rfl, ?_⟩
  · rw [hsys]
    exact route_to_context_fst w env "/bin/sh" _ _ "contextA" hT hs hc
  · intro hb
    rw [hsys, route_to_context_connected w env "/bin/sh" _ _ "contextA"
      hT hs hc, if_neg (by rw [hb]; decide), hb]
    exact congrArg Behavior.exited (by decide)

/-- Witness for C4: concrete scenario with command "echo hi" and daemon
response "0". -/
theorem system_wraps_shell_witness :
    ∃ r, (system ⟨true, true, "0", fun _ => false⟩
        ["SANDBOX_ROUTE_TO_CONTEXT=contextA"] "echo hi").1 = some r ∧
      r.get? 0 = some "ROUTE" ∧
      r.get? 1 = some "CONTEXT:contextA" ∧
      r.get? 2 = some "CMD:/bin/sh" ∧
      r.get? 3 = some "ARG:sh" ∧
      r.get? 4 = some "ARG:-c" ∧
      r.get? 5 = some ("ARG:" ++ "echo hi") ∧
      (("0" : String) = "0" →
        (system ⟨true, true, "0", fun _ => false⟩
          ["SANDBOX_ROUTE_TO_CONTEXT=contextA"] "echo hi").2 = .exited 0) :=
  system_wraps_shell ⟨true, true, "0", fun _ => false⟩
    ["SANDBOX_ROUTE_TO_CONTEXT=contextA"] "echo hi" (by decide) rfl rfl

/-- C5: under routing, execvp resolves the file through the PATH-listed
directories in order (PATH defaulting to /usr/bin:/bin when unset): the
CMD line carries the first dir/file concatenation passing the
executability test, which is the plain concatenation whenever it fits the
4096-byte buffer; when no directory matches, routing is still attempted
with the unresolved name as given, and on an empty response the call falls
back. -/
theorem execvp_resolves_first (w : World) (env : List String)
    (file target : String) (argv : Option (List String))
    (hT : getenv env "SANDBOX_ROUTE_TO_CONTEXT" = some target)
    (hs : w.socketOk = true) (hc : w.connectOk = true) :
    (∀ pre d post,
      strtokSplit ((getenv env "PATH").getD "/usr/bin:/bin") =
        pre ++ d :: post →
      (∀ e ∈ pre, w.xok (fullPath e file) = false) →
      w.xok (fullPath d file) = true →
      ∃ r, (execvp w env file argv).1 = some r ∧
        r.get? 2 = some ("CMD:" ++ fullPath d file) ∧
        (d.data.length + 1 + file.data.length ≤ 4095 →
          fullPath d file = d ++ "/" ++ file)) ∧
    ((∀ e ∈ strtokSplit ((getenv env "PATH").getD "/usr/bin:/bin"),
        w.xok (fullPath e file) = false) →
      ∃ r, (execvp w env file argv).1 = some r ∧
        r.get? 2 = some ("CMD:" ++ file) ∧
        (w.readBytes = "" →
          (execvp w env file argv).2 = .realExecve file argv (some env))) := by
  have hr := should_route_of_some hT
  constructor
  · intro pre d post hdirs hpre hd
    have hsearch : searchPath w.xok file
        (strtokSplit ((getenv env "PATH").getD "/usr/bin:/bin")) =
        some (fullPath d file) := by
      rw [hdirs]
      exact searchPath_of_first w.xok file pre d post hpre hd
    have hex : execvp w env file argv =
        route_to_context w env (fullPath d file) argv (some env) := by
      simp [execvp, hr, hsearch]
    refine ⟨encodeRequest target (fullPath d file) argv (some env), ?_,
      rfl, fullPath_eq_concat d file⟩
    rw [hex]
    exact route_to_context_fst w env _ argv (some env) target hT hs hc
  · intro hall
    have hsearch : searchPath w.xok file
        (strtokSplit ((getenv env "PATH").getD "/usr/bin:/bin")) = none :=
      searchPath_of_none w.xok file _ hall
    have hex : execvp w env file argv =
        route_to_context w env file argv (some env) := by
      simp [execvp, hr, hsearch]
    refine ⟨encodeRequest target file argv (some env), ?_, rfl, ?_⟩
    · rw [hex]
      exact route_to_context_fst w env file argv (some env) target hT hs hc
    · intro hb
      rw [hex, route_to_context_connected w env file argv (some env)
        target hT hs hc, if_pos hb]

/-- Witness for C5: PATH = /usr/games:/usr/bin with ls executable only in
/usr/bin resolves the CMD line to /usr/bin/ls. -/
theorem execvp_resolves_first_witness :
    ∃ r, (execvp ⟨true, true, "", fun s => s == "/usr/bin/ls"⟩
        ["SANDBOX_ROUTE_TO_CONTEXT=c", "PATH=/usr/games:/usr/bin"] "ls"
        (some ["ls"])).1 = some r ∧
      r.get? 2 = some ("CMD:" ++ fullPath "/usr/bin" "ls") ∧
      (("/usr/bin" : String).data.length + 1 + ("ls" : String).data.length ≤ 4095 →
        fullPath "/usr/bin" "ls" = "/usr/bin" ++ "/" ++ "ls") :=
  (execvp_resolves_first ⟨true, true, "", fun s => s == "/usr/bin/ls"⟩
      ["SANDBOX_ROUTE_TO_CONTEXT=c", "PATH=/usr/games:/usr/bin"] "ls" "c"
      (some ["ls"]) (by decide) rfl rfl).1
    ["/usr/games"] "/usr/bin" [] (by decide) (by decide) (by decide)

/-- C10: under routing, execvp applies the PATH search to the file
argument unconditionally, even when it contains a directory separator:
each PATH directory is probed as dir/file, the first executable
concatenation is routed, and only when no concatenation is executable is
routing attempted with the file argument as given. -/
theorem execvp_searches_despite_separator (w : World) (env : List String)
    (file target : String) (argv : Option (List String))
    (hT : getenv env "SANDBOX_ROUTE_TO_CONTEXT" = some target)
    (hs : w.socketOk = true) (hc : w.connectOk = true)
    (_hsep : '/' ∈ file.data) :
    (∀ pre d post,
      strtokSplit ((getenv env "PATH").getD "/usr/bin:/bin") =
        pre ++ d :: post →
      (∀ e ∈ pre, w.xok (fullPath e file) = false) →
      w.xok (fullPath d file) = true →
      ∃ r, (execvp w env file argv).1 = some r ∧
        r.get? 2 = some ("CMD:" ++ fullPath d file)) ∧
    ((∀ e ∈ strtokSplit ((getenv env "PATH").getD "/usr/bin:/bin"),
        w.xok (fullPath e file) = false) →
      ∃ r, (execvp w env file argv).1 = some r ∧
        r.get? 2 = some ("CMD:" ++ file)) := by
  have h5 := execvp_resolves_first w env file target argv hT hs hc
  constructor
  · intro pre d post hdirs hpre hd
    obtain ⟨r, h1, h2, _⟩ := h5.1 pre d post hdirs hpre hd
    exact ⟨r, h1, h2⟩
  · intro hall
    obtain ⟨r, h1, h2, _⟩ := h5.2 hall
    exact ⟨r, h1, h2⟩

/-- Witness for C10: file "bin/ls" (containing a separator) is still
resolved through PATH = /usr, yielding CMD:/usr/bin/ls. -/
theorem execvp_searches_despite_separator_witness :
    ∃ r, (execvp ⟨true, true, "", fun s => s == "/usr/bin/ls"⟩
        ["SANDBOX_ROUTE_TO_CONTEXT=c", "PATH=/usr"] "bin/ls"
        (some ["bin/ls"])).1 = some r ∧
      r.get? 2 = some ("CMD:" ++ fullPath "/usr" "bin/ls") :=
  (execvp_searches_despite_separator
      ⟨true, true, "", fun s => s == "/usr/bin/ls"⟩
      ["SANDBOX_ROUTE_TO_CONTEXT=c", "PATH=/usr"] "bin/ls" "c"
      (some ["bin/ls"]) (by decide) rfl rfl (by decide)).1
    [] "/usr" [] (by decide) (by decide) (by decide)

/-- C1: refuted on the code.  The filter compares 26 characters against
the 25-character literal "SANDBOX_ROUTE_TO_CONTEXT=", which includes the
literal's NUL terminator, so only the exact empty-value entry is dropped:
an activation entry with a non-empty value survives the filter, is
forwarded as an ENV line by the request encoder, and is kept in the
environment substituted for a routed popen call.  Only LD_PRELOAD (an
11-character comparison, a true prefix test) is stripped for every
value. -/
theorem activation_var_is_forwarded :
    keepEnv "SANDBOX_ROUTE_TO_CONTEXT=contextA" = true ∧
    keepEnv "SANDBOX_ROUTE_TO_CONTEXT=" = false ∧
    keepEnv "LD_PRELOAD=/x.so" = false ∧
    (route_to_context ⟨true, true, "", fun _ => false⟩
        ["SANDBOX_ROUTE_TO_CONTEXT=contextA"] "/bin/ls" (some ["ls"])
        (some ["SANDBOX_ROUTE_TO_CONTEXT=contextA", "LD_PRELOAD=/x.so"])).1 =
      some ["ROUTE", "CONTEXT:contextA", "CMD:/bin/ls", "ARG:ls",
        "ENV:SANDBOX_ROUTE_TO_CONTEXT=contextA", "END"] ∧
    (popen ["SANDBOX_ROUTE_TO_CONTEXT=contextA", "LD_PRELOAD=/x.so"]
        "cmd" "r").2 =
      .realPopen "cmd" "r" ["SANDBOX_ROUTE_TO_CONTEXT=contextA"]
        ["SANDBOX_ROUTE_TO_CONTEXT=contextA", "LD_PRELOAD=/x.so"] := by
  refine ⟨rfl, rfl, rfl, ?_, ?_⟩ <;> decide

/-- C2: refuted on the code.  With the activation variable set and socket
creation failing, the intercepted system falls back to real_execve of
/bin/sh with [sh, -c, command] — replacing the process on success — rather
than to real_system with the original command as when the variable is
unset; the two behaviors are distinct.  The intercepted execve alone falls
back to the real primitive with the caller's original arguments. -/
theorem system_fallback_replaces_process :
    (system ⟨false, false, "", fun _ => false⟩
        ["SANDBOX_ROUTE_TO_CONTEXT=c"] "echo hi").2 =
      .realExecve "/bin/sh" (some ["sh", "-c", "echo hi"])
        (some ["SANDBOX_ROUTE_TO_CONTEXT=c"]) ∧
    (system ⟨false, false, "", fun _ => false⟩ [] "echo hi").2 =
      .realSystem "echo hi" ∧
    Behavior.realExecve "/bin/sh" (some ["sh", "-c", "echo hi"])
        (some ["SANDBOX_ROUTE_TO_CONTEXT=c"]) ≠
      Behavior.realSystem "echo hi" ∧
    (execve ⟨false, false, "", fun _ => false⟩
        ["SANDBOX_ROUTE_TO_CONTEXT=c"] "/bin/ls" (some ["ls"])
        (some [])).2 =
      .realExecve "/bin/ls" (some ["ls"]) (some []) := by
  refine ⟨?_, ?_, ?_, ?_⟩ <;> decide

end URouter
